import Mathlib

/-!
Verification development for the fcm-notification-server repository.

Shallow embedding of the dispatch and delivery-tracking core:
the template engine (`notification/services/template_engine.py`),
the provider client pool (`notification/services/fcm_service.py`),
the webhook dispatcher (`notification/services/webhook_dispatcher.py`),
the synchronous send views (`notification/views.py`) and the
asynchronous task pipeline (`notification/tasks.py`).

Machine integers do not occur in the modelled code; timestamps are
modelled as natural numbers counting seconds.
-/

namespace FcmServer

/-! ## Template engine (`notification/services/template_engine.py`)

`render_template(template_string, variables)` substitutes placeholders
of the form "open-brace open-brace name close-brace close-brace" using
`re.sub` with the pattern: two opening braces, a group of
`\s* \w+ \s*`, two closing braces.  The replacer strips the group,
looks the key up in `variables`, substitutes its string form when
present and leaves the whole match verbatim otherwise.

The regex character classes are modelled over their ASCII content
(`\w` is letters, digits and underscore; `\s` is the six ASCII
whitespace characters).  Since `\w`, `\s`, and the brace characters
are pairwise disjoint, the greedy maximal-munch scan below matches the
regex engine exactly (no backtracking can succeed where maximal munch
fails).  `re.sub` scans left to right over non-overlapping matches,
which the recursion mirrors: on a failed match at a double-brace position the
scan advances a single character.  The recursion is driven by a fuel
argument that starts at the length of the input; every step consumes
at least one character while spending exactly one unit of fuel, so the
fuel never runs out on the wrapper's call.
-/

def isWordChar (c : Char) : Bool :=
  ('a' ≤ c && c ≤ 'z') || ('A' ≤ c && c ≤ 'Z') || ('0' ≤ c && c ≤ '9') || c == '_'

def isPySpace (c : Char) : Bool :=
  c == ' ' || c == '\t' || c == '\n' || c == '\x0d' || c == '\x0b' || c == '\x0c'

/-- Python's `str.strip()`: drop whitespace from both ends. -/
def pyStrip (s : String) : String :=
  ⟨((s.data.dropWhile isPySpace).reverse.dropWhile isPySpace).reverse⟩

/-- Python `dict.get(key)`: first binding wins (dict keys are unique). -/
def lookupVar (v : List (String × String)) (k : String) : Option String :=
  match v with
  | [] => none
  | (k', val) :: rest => if k' = k then some val else lookupVar rest k

/-- Try to match `\s*\w+\s*` followed by the two closing braces at the
start of `cs` (the characters following the two opening braces).
Returns the matched
group (spaces + word + spaces) and the remainder after the braces. -/
def tryMatch (cs : List Char) : Option (List Char × List Char) :=
  let s1 := cs.takeWhile isPySpace
  let r1 := cs.dropWhile isPySpace
  let w := r1.takeWhile isWordChar
  let r2 := r1.dropWhile isWordChar
  if w.isEmpty then none
  else
    let s2 := r2.takeWhile isPySpace
    let r3 := r2.dropWhile isPySpace
    match r3 with
    | '}' :: '}' :: rest => some (s1 ++ w ++ s2, rest)
    | _ => none

/-- A successful `tryMatch` decomposes its input exactly. -/
theorem tryMatch_decomp {cs inner rest' : List Char}
    (h : tryMatch cs = some (inner, rest')) :
    cs = inner ++ '}' :: '}' :: rest' := by
  unfold tryMatch at h
  simp only at h
  split at h
  · exact absurd h (by simp)
  · split at h
    · rename_i r3 rest heq
      injection h with h
      injection h with h1 h2
      subst h1; subst h2
      have key : cs =
          cs.takeWhile isPySpace ++
            ((cs.dropWhile isPySpace).takeWhile isWordChar ++
              (((cs.dropWhile isPySpace).dropWhile isWordChar).takeWhile isPySpace ++
                ((cs.dropWhile isPySpace).dropWhile isWordChar).dropWhile isPySpace)) := by
        rw [List.takeWhile_append_dropWhile, List.takeWhile_append_dropWhile,
          List.takeWhile_append_dropWhile]
      rw [heq] at key
      simpa [List.append_assoc] using key
    · exact absurd h (by simp)

/-- The scan of `render_template`, fuelled.  `renderFuel v fuel cs`
computes `re.sub`'s output on `cs` provided `fuel ≥ cs.length`. -/
def renderFuel (v : List (String × String)) : Nat → List Char → List Char
  | 0, cs => cs
  | _ + 1, [] => []
  | fuel + 1, c :: cs =>
    if c = '{' then
      match cs with
      | [] => [c]
      | c2 :: rest =>
        if c2 = '{' then
          match tryMatch rest with
          | some (inner, rest') =>
            match lookupVar v (pyStrip ⟨inner⟩) with
            | some val => val.data ++ renderFuel v fuel rest'
            | none => c :: c2 :: (inner ++ '}' :: '}' :: renderFuel v fuel rest')
          | none => c :: renderFuel v fuel cs
        else c :: renderFuel v fuel cs
    else c :: renderFuel v fuel cs

/-- The placeholder keys found by the same scan, in order. -/
def placeholdersFuel : Nat → List Char → List String
  | 0, _ => []
  | _ + 1, [] => []
  | fuel + 1, c :: cs =>
    if c = '{' then
      match cs with
      | [] => []
      | c2 :: rest =>
        if c2 = '{' then
          match tryMatch rest with
          | some (inner, rest') => pyStrip ⟨inner⟩ :: placeholdersFuel fuel rest'
          | none => placeholdersFuel fuel cs
        else placeholdersFuel fuel cs
    else placeholdersFuel fuel cs

/-- The embedding of `render_template(template_string, variables)`. -/
def renderTemplate (s : String) (v : List (String × String)) : String :=
  ⟨renderFuel v s.data.length s.data⟩

/-- The list of placeholder keys occurring in `s`. -/
def placeholders (s : String) : List String :=
  placeholdersFuel s.data.length s.data

/-- Every placeholder occurring in `s` has a binding in `v`. -/
def coveredBy (s : String) (v : List (String × String)) : Bool :=
  (placeholders s).all fun k => (lookupVar v k).isSome

/-- No placeholder occurring in `s` has a binding in `v`. -/
def allUnresolved (s : String) (v : List (String × String)) : Bool :=
  (placeholders s).all fun k => (lookupVar v k).isNone

/-- Core preservation lemma: when every placeholder key found by the
scan fails to resolve, the replacer reproduces each match verbatim, so
the whole scan is the identity. -/
theorem renderFuel_of_unresolved (v : List (String × String)) :
    ∀ fuel cs, cs.length ≤ fuel →
      (∀ k ∈ placeholdersFuel fuel cs, lookupVar v k = none) →
      renderFuel v fuel cs = cs := by
  intro fuel
  induction fuel with
  | zero => intro cs _ _; cases cs <;> rfl
  | succ fuel ih =>
    intro cs hlen hun
    match cs with
    | [] => rfl
    | c :: cs' =>
      by_cases hc : c = '{'
      · subst hc
        match cs' with
        | [] => simp [renderFuel]
        | c2 :: rest =>
          by_cases hc2 : c2 = '{'
          · subst hc2
            rcases htm : tryMatch rest with _ | ⟨inner, rest'⟩
            · have hlen' : ('{' :: rest).length ≤ fuel := by
                simp only [List.length_cons] at hlen ⊢; omega
              have hun' : ∀ k ∈ placeholdersFuel fuel ('{' :: rest),
                  lookupVar v k = none := by
                intro k hk
                apply hun
                simpa [placeholdersFuel, htm] using hk
              simp [renderFuel, htm, ih _ hlen' hun']
            · have hdec := tryMatch_decomp htm
              have hkey : lookupVar v (pyStrip ⟨inner⟩) = none := by
                apply hun; simp [placeholdersFuel, htm]
              have hlen' : rest'.length ≤ fuel := by
                have hr : rest.length = inner.length + 2 + rest'.length := by
                  rw [hdec]; simp; omega
                simp only [List.length_cons] at hlen; omega
              have hun' : ∀ k ∈ placeholdersFuel fuel rest',
                  lookupVar v k = none := by
                intro k hk
                apply hun
                simp [placeholdersFuel, htm]
                exact Or.inr hk
              have hred : renderFuel v (fuel + 1) ('{' :: '{' :: rest) =
                  '{' :: '{' :: (inner ++ '}' :: '}' :: renderFuel v fuel rest') := by
                simp [renderFuel, htm, hkey]
              rw [hred, ih _ hlen' hun', ← hdec]
          · have hlen' : (c2 :: rest).length ≤ fuel := by
              simp only [List.length_cons] at hlen ⊢; omega
            have hun' : ∀ k ∈ placeholdersFuel fuel (c2 :: rest),
                lookupVar v k = none := by
              intro k hk
              apply hun
              simpa [placeholdersFuel, hc2] using hk
            simp [renderFuel, hc2, ih _ hlen' hun']
      · have hlen' : cs'.length ≤ fuel := by
          simp only [List.length_cons] at hlen; omega
        have hun' : ∀ k ∈ placeholdersFuel fuel cs', lookupVar v k = none := by
          intro k hk
          apply hun
          simpa [placeholdersFuel, hc] using hk
        simp [renderFuel, hc, ih _ hlen' hun']

/-- Rendering leaves text verbatim when none of its placeholders
resolve (string-level wrapper of the preservation lemma). -/
theorem renderTemplate_of_unresolved (s : String) (v : List (String × String))
    (h : allUnresolved s v = true) : renderTemplate s v = s := by
  have hun : ∀ k ∈ placeholders s, lookupVar v k = none := by
    intro k hk
    have := (List.all_eq_true.mp h) k hk
    simpa [Option.isNone_iff_eq_none] using this
  have := renderFuel_of_unresolved v s.data.length s.data le_rfl hun
  cases s with
  | mk data => simpa [renderTemplate] using congrArg String.mk this

/-- Claim C7, counterexample: rendering is NOT idempotent for every
template whose placeholders are all covered by the variable map.  With
the template consisting of a single `a` placeholder and the map
binding `a` to a text containing a `b` placeholder and `b` to `"x"`,
every placeholder of the template is covered, yet the first render
produces the `b` placeholder and the second render resolves it. -/
theorem claim7_counterexample :
    coveredBy "\x7b\x7ba\x7d\x7d" [("a", "\x7b\x7bb\x7d\x7d"), ("b", "x")] = true ∧
    renderTemplate
        (renderTemplate "\x7b\x7ba\x7d\x7d" [("a", "\x7b\x7bb\x7d\x7d"), ("b", "x")])
        [("a", "\x7b\x7bb\x7d\x7d"), ("b", "x")] ≠
      renderTemplate "\x7b\x7ba\x7d\x7d" [("a", "\x7b\x7bb\x7d\x7d"), ("b", "x")] := by
  constructor
  · decide
  · decide

/-- Claim C7 (amended): template rendering is idempotent on
already-resolved text — `render(render(s,v),v) = render(s,v)` —
whenever no placeholder remaining in `render(s,v)` resolves in `v`
(in particular when all placeholders of `s` are covered and the
substituted values introduce no further covered placeholder, directly
or by concatenation at substitution boundaries). -/
theorem claim7_render_idempotent (s : String) (v : List (String × String))
    (h : allUnresolved (renderTemplate s v) v = true) :
    renderTemplate (renderTemplate s v) v = renderTemplate s v :=
  renderTemplate_of_unresolved (renderTemplate s v) v h

/-- Witness for C7 at a concrete fully-resolving input. -/
theorem claim7_witness :
    allUnresolved (renderTemplate "Hello \x7b\x7bname\x7d\x7d" [("name", "John")])
        [("name", "John")] = true ∧
    renderTemplate
        (renderTemplate "Hello \x7b\x7bname\x7d\x7d" [("name", "John")])
        [("name", "John")] =
      renderTemplate "Hello \x7b\x7bname\x7d\x7d" [("name", "John")] :=
  ⟨by decide, claim7_render_idempotent _ _ (by decide)⟩

/-- Claim C8: a placeholder whose name has no binding in the variable
map is left verbatim in the output — rendering text none of whose
placeholders resolve returns it unchanged (total function: no error is
raised, and nothing is blanked). -/
theorem claim8_unresolved_verbatim (s : String) (v : List (String × String))
    (h : allUnresolved s v = true) : renderTemplate s v = s :=
  renderTemplate_of_unresolved s v h

/-- Witness for C8: the spec's concrete example — rendering a lone
`missing` placeholder against the empty map returns it unchanged. -/
theorem claim8_witness :
    allUnresolved "\x7b\x7bmissing\x7d\x7d" [] = true ∧
    renderTemplate "\x7b\x7bmissing\x7d\x7d" [] = "\x7b\x7bmissing\x7d\x7d" :=
  ⟨by decide, claim8_unresolved_verbatim _ _ (by decide)⟩

/-! ## Webhook dispatcher (`notification/services/webhook_dispatcher.py`)

`_deliver_webhook` posts the signed payload with a 10-second timeout
and `raise_for_status()`, so a network error and a non-2xx response
alike raise `requests.RequestException`; the mutable state of a
`WebhookEndpoint` row (`failure_count`, `is_active`,
`last_triggered_at`) is updated accordingly.  `dispatch_webhook`
selects the endpoints with `is_active=True` whose subscribed event
list contains the event type.  Timestamps are seconds. -/

def MAX_FAILURE_COUNT : Nat := 10

structure WebhookEndpoint where
  failureCount : Nat
  isActive : Bool
  lastTriggeredAt : Option Nat
  events : List String
deriving DecidableEq

/-- State effect of `_deliver_webhook` on the endpoint row.
`transportOk` is true exactly when the POST succeeded with a 2xx
status (otherwise `requests.RequestException` was raised, covering
both network errors and `raise_for_status` on a non-2xx response). -/
def deliverWebhook (w : WebhookEndpoint) (transportOk : Bool) (now : Nat) :
    WebhookEndpoint :=
  if transportOk then
    { w with failureCount := 0, lastTriggeredAt := some now }
  else
    let w1 := { w with failureCount := w.failureCount + 1, lastTriggeredAt := some now }
    if MAX_FAILURE_COUNT ≤ w1.failureCount then { w1 with isActive := false } else w1

/-- The subscriptions `dispatch_webhook` delivers to: active ones that
subscribe to the event type. -/
def dispatchTargets (hooks : List WebhookEndpoint) (eventType : String) :
    List WebhookEndpoint :=
  (hooks.filter fun w => w.isActive).filter fun w => eventType ∈ w.events

/-- Claim C4: on transport success `failure_count` resets to 0 and
`last_triggered_at` is stamped; on transport failure `failure_count`
increments and `last_triggered_at` is stamped, and the subscription is
deactivated exactly when the incremented count reaches the threshold
of 10; dispatch only ever selects active subscriptions, so a
deactivated subscription receives no further delivery attempts. -/
theorem claim4_webhook_failure_policy (w : WebhookEndpoint)
    (hooks : List WebhookEndpoint) (eventType : String) (now : Nat) :
    (deliverWebhook w true now).failureCount = 0 ∧
    (deliverWebhook w true now).lastTriggeredAt = some now ∧
    (deliverWebhook w true now).isActive = w.isActive ∧
    (deliverWebhook w false now).failureCount = w.failureCount + 1 ∧
    (deliverWebhook w false now).lastTriggeredAt = some now ∧
    (deliverWebhook w false now).isActive =
      (if MAX_FAILURE_COUNT ≤ w.failureCount + 1 then false else w.isActive) ∧
    (∀ w' ∈ dispatchTargets hooks eventType, w'.isActive = true) := by
  refine ⟨rfl, rfl, rfl, ?_, ?_, ?_, ?_⟩
  · simp [deliverWebhook]
    split <;> rfl
  · simp [deliverWebhook]
    split <;> rfl
  · simp [deliverWebhook]
    split <;> simp [*]
  · intro w' hw'
    simp only [dispatchTargets, List.mem_filter] at hw'
    exact hw'.1.2

/-- Witness for C4: an endpoint at 9 consecutive failures is
deactivated by the 10th, and a deactivated endpoint is never selected
for dispatch. -/
theorem claim4_witness :
    (deliverWebhook ⟨9, true, none, ["notification.sent"]⟩ true 5).failureCount = 0 ∧
    (deliverWebhook ⟨9, true, none, ["notification.sent"]⟩ true 5).lastTriggeredAt = some 5 ∧
    (deliverWebhook ⟨9, true, none, ["notification.sent"]⟩ true 5).isActive = true ∧
    (deliverWebhook ⟨9, true, none, ["notification.sent"]⟩ false 5).failureCount = 10 ∧
    (deliverWebhook ⟨9, true, none, ["notification.sent"]⟩ false 5).lastTriggeredAt = some 5 ∧
    (deliverWebhook ⟨9, true, none, ["notification.sent"]⟩ false 5).isActive =
      (if MAX_FAILURE_COUNT ≤ 9 + 1 then false else true) ∧
    (∀ w' ∈ dispatchTargets [⟨10, false, some 5, ["notification.sent"]⟩]
        "notification.sent", w'.isActive = true) :=
  claim4_webhook_failure_policy ⟨9, true, none, ["notification.sent"]⟩
    [⟨10, false, some 5, ["notification.sent"]⟩] "notification.sent" 5

/-! ## Scheduled-notification state machine
(`process_scheduled_notifications` in `notification/tasks.py`)

After sending, the sweep stamps `last_sent_at`, increments
`occurrence_count`, and advances status and `next_run_at` following
the occurrence cap and repeat interval; on any exception for one row
the row is marked `paused` instead.  `timedelta(days=1)` is 86400
seconds, `weeks=1` is 7 days, the "month" interval is 30 days. -/

def daySecs : Nat := 86400

structure ScheduledNotification where
  status : String
  repeatInterval : String
  nextRunAt : Option Nat
  lastSentAt : Option Nat
  occurrenceCount : Nat
  maxOccurrences : Option Nat
deriving DecidableEq

/-- The Django due filter: `status__in=['pending','active']` and
`next_run_at__lte=now` (a NULL `next_run_at` never compares `<=`). -/
def isDue (s : ScheduledNotification) (now : Nat) : Bool :=
  (s.status = "pending" || s.status = "active") &&
    (match s.nextRunAt with
     | some t => t ≤ now
     | none => false)

/-- State advance after a successful send (lines 368-389 of
`tasks.py`).  The occurrence-cap test is Python's
`if scheduled.max_occurrences and scheduled.occurrence_count >= scheduled.max_occurrences`,
run after the increment: `None` and `0` are both falsy. -/
def advanceSchedule (s : ScheduledNotification) (now : Nat) :
    ScheduledNotification :=
  let s := { s with lastSentAt := some now,
                    occurrenceCount := s.occurrenceCount + 1 }
  if (match s.maxOccurrences with
      | some m => decide (0 < m) && decide (m ≤ s.occurrenceCount)
      | none => false) then
    { s with status := "completed", nextRunAt := none }
  else if s.repeatInterval = "none" then
    { s with status := "completed", nextRunAt := none }
  else
    { s with status := "active",
             nextRunAt :=
               if s.repeatInterval = "daily" then some (now + daySecs)
               else if s.repeatInterval = "weekly" then some (now + 7 * daySecs)
               else if s.repeatInterval = "monthly" then some (now + 30 * daySecs)
               else s.nextRunAt }

/-- Per-row behaviour of the sweep: advance on success, mark the row
`paused` on an exception (the sweep then continues with other rows). -/
def processScheduledRow (s : ScheduledNotification) (now : Nat)
    (sendOk : Bool) : ScheduledNotification :=
  if sendOk then advanceSchedule s now else { s with status := "paused" }

/-- Claim C9: a due `ScheduledNotification` with `repeat_interval`
"daily" and no `max_occurrences`, processed successfully at time
`now`, ends with status "active", `next_run_at` exactly 24 hours
(86400 s) after `now`, `occurrence_count` incremented by one and
`last_sent_at` equal to `now`. -/
theorem claim9_daily_recurrence (s : ScheduledNotification) (now : Nat)
    (hdue : isDue s now = true)
    (hdaily : s.repeatInterval = "daily")
    (hnomax : s.maxOccurrences = none) :
    (processScheduledRow s now true).status = "active" ∧
    (processScheduledRow s now true).nextRunAt = some (now + 86400) ∧
    (processScheduledRow s now true).occurrenceCount = s.occurrenceCount + 1 ∧
    (processScheduledRow s now true).lastSentAt = some now := by
  have : (86400 : Nat) = daySecs := rfl
  simp [processScheduledRow, advanceSchedule, hdaily, hnomax, daySecs]

/-- Witness for C9 at a concrete due daily schedule. -/
theorem claim9_witness :
    (processScheduledRow ⟨"active", "daily", some 100, some 3, 7, none⟩ 100 true).status
        = "active" ∧
    (processScheduledRow ⟨"active", "daily", some 100, some 3, 7, none⟩ 100 true).nextRunAt
        = some (100 + 86400) ∧
    (processScheduledRow ⟨"active", "daily", some 100, some 3, 7, none⟩ 100 true).occurrenceCount
        = 7 + 1 ∧
    (processScheduledRow ⟨"active", "daily", some 100, some 3, 7, none⟩ 100 true).lastSentAt
        = some 100 :=
  claim9_daily_recurrence ⟨"active", "daily", some 100, some 3, 7, none⟩ 100
    (by decide) rfl rfl

/-! ## Multicast outcome reconciliation
(`notification/views.py` lines 112-130 and 215-227,
`notification/tasks.py` lines 136-152)

All three loops are textually the same algorithm over
`enumerate(devices)`:

  individual_status = "sent"; error_message = None
  if hasattr(response, 'responses') and i < len(response.responses):
      if not response.responses[i].success:
          individual_status = "failed"
          error_message = str(response.responses[i].exception)

followed by writing one `NotificationDeliveryLog` row for the device,
with `delivered_at` stamped exactly when the status is "sent".  The
`hasattr` probe is modelled by an `Option` around the per-token
response list; the `i < len` probe by optional indexing. -/

structure Device where
  id : Nat
  pushToken : String
  deviceType : String
  isActive : Bool
deriving DecidableEq

/-- One entry of `response.responses` from the provider. -/
structure SendResponse where
  success : Bool
  exception : String
deriving DecidableEq

/-- One `NotificationDeliveryLog` row, restricted to the fields the
send paths write. -/
structure DeliveryLogRow where
  deviceId : Nat
  status : String
  errorMessage : Option String
  deliveredAt : Option Nat
deriving DecidableEq

/-- The loop body: the delivery-log row recorded for the device at
index `i`.  `resp = none` models a provider response object with no
`responses` attribute. -/
def outcomeFor (resp : Option (List SendResponse)) (i : Nat) (now : Nat)
    (d : Device) : DeliveryLogRow :=
  let se : String × Option String :=
    match resp with
    | some rs =>
      match rs[i]? with
      | some r => if r.success then ("sent", none) else ("failed", some r.exception)
      | none => ("sent", none)
    | none => ("sent", none)
  { deviceId := d.id, status := se.1, errorMessage := se.2,
    deliveredAt := if se.1 = "sent" then some now else none }

/-- The reconciliation loop from index `j` on. -/
def reconcileFrom (resp : Option (List SendResponse)) (now : Nat) :
    Nat → List Device → List DeliveryLogRow
  | _, [] => []
  | j, d :: ds => outcomeFor resp j now d :: reconcileFrom resp now (j + 1) ds

/-- The rows written by `for i, device in enumerate(devices): ...`. -/
def reconcileOutcomes (devices : List Device)
    (resp : Option (List SendResponse)) (now : Nat) : List DeliveryLogRow :=
  reconcileFrom resp now 0 devices

theorem reconcileFrom_length (resp : Option (List SendResponse)) (now : Nat) :
    ∀ ds j, (reconcileFrom resp now j ds).length = ds.length := by
  intro ds
  induction ds with
  | nil => intro j; rfl
  | cons d ds ih => intro j; simp [reconcileFrom, ih]

theorem reconcileFrom_get? (resp : Option (List SendResponse)) (now : Nat) :
    ∀ ds j i, (reconcileFrom resp now j ds)[i]? =
      ds[i]?.map fun d => outcomeFor resp (j + i) now d := by
  intro ds
  induction ds with
  | nil => intro j i; simp [reconcileFrom]
  | cons d ds ih =>
    intro j i
    cases i with
    | zero => simp [reconcileFrom]
    | succ i =>
      simp only [reconcileFrom, List.getElem?_cons_succ, ih (j + 1) i]
      have : j + 1 + i = j + (i + 1) := by omega
      rw [this]

theorem reconcileOutcomes_get? (devices : List Device)
    (resp : Option (List SendResponse)) (now i : Nat) :
    (reconcileOutcomes devices resp now)[i]? =
      devices[i]?.map fun d => outcomeFor resp i now d := by
  simpa [reconcileOutcomes] using reconcileFrom_get? resp now devices 0 i

/-- Claim C3: a multicast over N devices writes exactly N delivery-log
rows, one per input token in input order, and when the provider
reports a per-token response for every token (including partial
failures) the batch is never aborted: the row at index `i` is "failed"
carrying the captured error exactly when the provider reported a
failure there, and "sent" with `delivered_at` stamped otherwise. -/
theorem claim3_multicast_outcomes (devices : List Device)
    (rs : List SendResponse) (now : Nat)
    (hlen : rs.length = devices.length) :
    (reconcileOutcomes devices (some rs) now).length = devices.length ∧
    (reconcileOutcomes devices (some rs) now).map (fun l => l.deviceId) =
      devices.map (fun d => d.id) ∧
    (∀ i, i < devices.length → ∃ r, rs[i]? = some r) ∧
    (∀ (i : Nat) (d : Device) (r : SendResponse),
      devices[i]? = some d → rs[i]? = some r →
      (reconcileOutcomes devices (some rs) now)[i]? = some
        ({ deviceId := d.id,
           status := if r.success then "sent" else "failed",
           errorMessage := if r.success then none else some r.exception,
           deliveredAt := if r.success then some now else none } :
          DeliveryLogRow)) := by
  refine ⟨reconcileFrom_length (some rs) now devices 0, ?_, ?_, ?_⟩
  · apply List.ext_getElem?
    intro i
    rw [List.getElem?_map, List.getElem?_map, reconcileOutcomes_get?]
    cases devices[i]? <;> simp [outcomeFor]
  · intro i hi
    have : i < rs.length := by omega
    exact ⟨rs[i], List.getElem?_eq_getElem this⟩
  · intro i d r hd hr
    rw [reconcileOutcomes_get?, hd]
    cases hs : r.success <;>
      simp [outcomeFor, hr, hs]

/-- Witness for C3: two devices, the provider failing the second
token; two rows are written, in order, the first "sent" and the second
"failed" with the captured error. -/
theorem claim3_witness :
    (reconcileOutcomes
        [⟨1, "tokA", "Android", true⟩, ⟨2, "tokB", "iOS", true⟩]
        (some [⟨true, ""⟩, ⟨false, "UnregisteredError"⟩]) 9).length = 2 ∧
    (reconcileOutcomes
        [⟨1, "tokA", "Android", true⟩, ⟨2, "tokB", "iOS", true⟩]
        (some [⟨true, ""⟩, ⟨false, "UnregisteredError"⟩]) 9).map
      (fun l => l.deviceId) = [1, 2] ∧
    (∀ i, i < 2 → ∃ r,
      ([⟨true, ""⟩, ⟨false, "UnregisteredError"⟩] :
        List SendResponse)[i]? = some r) ∧
    (∀ (i : Nat) (d : Device) (r : SendResponse),
      ([⟨1, "tokA", "Android", true⟩, ⟨2, "tokB", "iOS", true⟩] :
        List Device)[i]? = some d →
      ([⟨true, ""⟩, ⟨false, "UnregisteredError"⟩] :
        List SendResponse)[i]? = some r →
      (reconcileOutcomes
          [⟨1, "tokA", "Android", true⟩, ⟨2, "tokB", "iOS", true⟩]
          (some [⟨true, ""⟩, ⟨false, "UnregisteredError"⟩]) 9)[i]? = some
        ({ deviceId := d.id,
           status := if r.success then "sent" else "failed",
           errorMessage := if r.success then none else some r.exception,
           deliveredAt := if r.success then some 9 else none } :
          DeliveryLogRow)) := by
  have h := claim3_multicast_outcomes
    [⟨1, "tokA", "Android", true⟩, ⟨2, "tokB", "iOS", true⟩]
    [⟨true, ""⟩, ⟨false, "UnregisteredError"⟩] 9 (by decide)
  exact ⟨h.1, by decide, h.2.2.1, h.2.2.2⟩

/-- Claim C10: a device's outcome is recorded as "failed" exactly when
the provider response has a `responses` list, the device's index is
within its length, and the entry there has `success = False`; in every
other case (shorter response list, or no `responses` attribute at all)
the row is "sent" with `delivered_at` stamped. -/
theorem claim10_outcome_rule (devices : List Device)
    (resp : Option (List SendResponse)) (now i : Nat) (d : Device)
    (hd : devices[i]? = some d) :
    (reconcileOutcomes devices resp now)[i]? =
      some (outcomeFor resp i now d) ∧
    ((outcomeFor resp i now d).status = "failed" ↔
      ∃ rs r, resp = some rs ∧ rs[i]? = some r ∧ r.success = false) ∧
    ((outcomeFor resp i now d).status = "failed" ∧
        (outcomeFor resp i now d).deliveredAt = none ∨
      (outcomeFor resp i now d).status = "sent" ∧
        (outcomeFor resp i now d).deliveredAt = some now) := by
  refine ⟨by rw [reconcileOutcomes_get?, hd]; rfl, ?_, ?_⟩
  · cases resp with
    | none => simp [outcomeFor]
    | some rs =>
      cases hr : rs[i]? with
      | none => simp [outcomeFor, hr]
      | some r =>
        cases hs : r.success <;> simp [outcomeFor, hr, hs]
  · cases resp with
    | none => simp [outcomeFor]
    | some rs =>
      cases hr : rs[i]? with
      | none => simp [outcomeFor, hr]
      | some r =>
        cases hs : r.success <;> simp [outcomeFor, hr, hs]

/-- Witness for C10: a provider response with a single-entry
`responses` list against two devices — the first row follows the
reported failure, the second (out of range) is recorded "sent". -/
theorem claim10_witness :
    ((reconcileOutcomes [⟨1, "tokA", "Android", true⟩, ⟨2, "tokB", "iOS", true⟩]
        (some [⟨false, "boom"⟩]) 4)[1]? =
      some (outcomeFor (some [⟨false, "boom"⟩]) 1 4 ⟨2, "tokB", "iOS", true⟩)) ∧
    ((outcomeFor (some [⟨false, "boom"⟩]) 1 4 ⟨2, "tokB", "iOS", true⟩).status = "failed" ↔
      ∃ rs r, (some [⟨false, "boom"⟩] : Option (List SendResponse)) = some rs ∧
        rs[1]? = some r ∧ r.success = false) ∧
    ((outcomeFor (some [⟨false, "boom"⟩]) 1 4 ⟨2, "tokB", "iOS", true⟩).status = "failed" ∧
        (outcomeFor (some [⟨false, "boom"⟩]) 1 4 ⟨2, "tokB", "iOS", true⟩).deliveredAt = none ∨
      (outcomeFor (some [⟨false, "boom"⟩]) 1 4 ⟨2, "tokB", "iOS", true⟩).status = "sent" ∧
        (outcomeFor (some [⟨false, "boom"⟩]) 1 4 ⟨2, "tokB", "iOS", true⟩).deliveredAt = some 4) :=
  claim10_outcome_rule [⟨1, "tokA", "Android", true⟩, ⟨2, "tokB", "iOS", true⟩]
    (some [⟨false, "boom"⟩]) 4 1 ⟨2, "tokB", "iOS", true⟩ (by decide)

/-! ## Provider client pool (`FCMService._get_or_create_app` in
`notification/services/fcm_service.py`)

State: the module-level `_firebase_apps` map plus the firebase-admin
SDK's own `_apps` registry.  The default path uses the cache key
`[DEFAULT]` and `settings.FIREBASE_CREDENTIALS_PATH` (unset modelled
as the empty string — the code tests `if not cred_path`); the tenant
path uses `project_<pk>` and the `FirebaseProject.credentials_json`
blob, parsed with `json.loads` when stored as a string (`json.loads`
is a library call, passed in as a function argument).  Client
instances are given identities by a construction counter, so "the
exact cached instance" is expressible as equality. -/

def CONFIG_ERROR_MSG : String :=
  "FIREBASE_CREDENTIALS_PATH not set in environment. " ++
    "Either set it in .env or provide a FirebaseProject instance."

/-- A parsed service-account credential blob (a flat JSON object). -/
def CredData : Type := List (String × String)

instance : DecidableEq CredData := by
  unfold CredData
  exact inferInstance

/-- The `credentials_json` blob as stored: either an already-parsed JSON object
or its string serialization. -/
inductive CredBlob
  | dict (d : CredData)
  | str (s : String)
deriving DecidableEq

structure FirebaseProject where
  pk : Nat
  credentialsJson : CredBlob
deriving DecidableEq

/-- What the app's `credentials.Certificate` was built from. -/
inductive CredSource
  | path (p : String)
  | data (d : CredData)
deriving DecidableEq

/-- A firebase app instance; `id` is a construction counter value
making instances distinguishable. -/
structure App where
  id : Nat
  cred : CredSource
deriving DecidableEq

/-- First-match association lookup (Python dict access). -/
def assocFind {α : Type} (m : List (String × α)) (k : String) : Option α :=
  match m with
  | [] => none
  | (k', a) :: rest => if k' = k then some a else assocFind rest k

structure PoolState where
  fcmApps : List (String × App)
  adminApps : List (String × App)
  nextId : Nat
deriving DecidableEq

/-- The cache key used by `_get_or_create_app`. -/
def cacheKeyOf (proj : Option FirebaseProject) : String :=
  match proj with
  | none => "[DEFAULT]"
  | some fp => "project_" ++ toString fp.pk

/-- The embedding of `FCMService._get_or_create_app` (lines 34-76 of
`fcm_service.py`).  `jsonLoads` stands for the `json.loads` library
call; `credPath` for `settings.FIREBASE_CREDENTIALS_PATH`. -/
def getOrCreateApp (jsonLoads : String → CredData) (credPath : String)
    (proj : Option FirebaseProject) (st : PoolState) :
    Except String App × PoolState :=
  match proj with
  | none =>
    match assocFind st.fcmApps "[DEFAULT]" with
    | some app => (.ok app, st)
    | none =>
      if credPath = "" then (.error CONFIG_ERROR_MSG, st)
      else
        match st.adminApps with
        | [] =>
          let app : App := { id := st.nextId, cred := .path credPath }
          (.ok app, { fcmApps := ("[DEFAULT]", app) :: st.fcmApps,
                      adminApps := ("[DEFAULT]", app) :: st.adminApps,
                      nextId := st.nextId + 1 })
        | _ :: _ =>
          match assocFind st.adminApps "[DEFAULT]" with
          | some app =>
            (.ok app, { st with fcmApps := ("[DEFAULT]", app) :: st.fcmApps })
          | none => (.error "The default Firebase app does not exist.", st)
  | some fp =>
    let appName := "project_" ++ toString fp.pk
    match assocFind st.fcmApps appName with
    | some app => (.ok app, st)
    | none =>
      let credData : CredData :=
        match fp.credentialsJson with
        | .dict d => d
        | .str s => jsonLoads s
      match assocFind st.adminApps appName with
      | some app =>
        (.ok app, { st with fcmApps := (appName, app) :: st.fcmApps })
      | none =>
        let app : App := { id := st.nextId, cred := .data credData }
        (.ok app, { fcmApps := (appName, app) :: st.fcmApps,
                    adminApps := (appName, app) :: st.adminApps,
                    nextId := st.nextId + 1 })

/-! ## Async retry pipeline (`send_notification_async` in
`notification/tasks.py`)

The task is declared `@shared_task(bind=True, max_retries=5)`.  On any
exception the handler upserts the delivery log to `failed` with the
captured error, sets `retry_count := retries + 1`, marks the
notification `failed` when `retries >= max_retries - 1`, and calls
`self.retry(exc=exc, countdown=_exponential_backoff(retries))`.

Celery's `Task.retry` semantics: with the request's current retry
count `retries`, the task is re-enqueued (with `request.retries`
incremented) iff `retries + 1 <= max_retries`; otherwise the original
exception is re-raised and nothing further is scheduled.  So
`max_retries = 5` allows 5 retries after the first run — six
executions in total. -/

/-- The `_exponential_backoff(retries)` helper from `tasks.py`: 30 * 2^retries. -/
def exponentialBackoff (retries : Nat) : Nat := 30 * 2 ^ retries

/-- The task-visible state: celery's `request.retries` counter plus
the notification row's `status` and `retry_count` and the delivery-log
row for the (notification, device) pair. -/
structure TaskState where
  retries : Nat
  notifStatus : String
  retryCount : Nat
  deliveryLog : Option (String × Option String)
deriving DecidableEq

/-- State before the first execution: the notification row starts at
its model default status "pending" with no delivery-log row yet. -/
def initialTaskState : TaskState :=
  { retries := 0, notifStatus := "pending", retryCount := 0, deliveryLog := none }

/-- One failing execution of `send_notification_async` (the `except`
branch, lines 66-96 of `tasks.py`), composed with celery's retry
rule.  Returns the state after the execution and the countdown of the
retry it scheduled, if any. -/
def failedAttemptStep (maxRetries : Nat) (errMsg : String) (st : TaskState) :
    TaskState × Option Nat :=
  let st1 : TaskState :=
    { st with deliveryLog := some ("failed", some errMsg),
              retryCount := st.retries + 1 }
  let st2 : TaskState :=
    if maxRetries - 1 ≤ st1.retries then { st1 with notifStatus := "failed" }
    else st1
  if st2.retries + 1 ≤ maxRetries then
    ({ st2 with retries := st2.retries + 1 },
      some (exponentialBackoff st.retries))
  else (st2, none)

/-- Runs `n` consecutive failing executions starting from the initial
state; also collects the countdowns of all retries scheduled. -/
def runFailedAttempts (maxRetries : Nat) (errMsg : String) :
    Nat → TaskState × List Nat
  | 0 => (initialTaskState, [])
  | n + 1 =>
    let r := runFailedAttempts maxRetries errMsg n
    let a := failedAttemptStep maxRetries errMsg r.1
    (a.1, r.2 ++ a.2.toList)

/-- Claim C2, counterexample: the claim says that after exactly 5
failed attempts no further retry is scheduled, but the 5th failing
execution (which does set the status to "failed") still schedules a
retry with countdown 480 s, so a 6th execution runs: `max_retries = 5`
allows five retries after the initial run. -/
theorem claim2_counterexample :
    (runFailedAttempts 5 "boom" 5).1.notifStatus = "failed" ∧
    (failedAttemptStep 5 "boom" (runFailedAttempts 5 "boom" 4).1).2 = some 480 :=
  ⟨rfl, rfl⟩

set_option maxHeartbeats 1600000 in
/-- Claim C2 (amended): every failed execution schedules a retry with
countdown 30 * 2^retries (30 s, 60 s, 120 s, 240 s, 480 s before
retries 1-5); the Notification status is still "pending" after 4
failed attempts and is set to "failed" on the 5th — but that attempt
still schedules one final retry, so the task runs a 6th time; after
the 6th failed attempt no further retry is scheduled and the status
remains "failed". -/
theorem claim2_retry_exhaustion (e : String) :
    (runFailedAttempts 5 e 4).1.notifStatus = "pending" ∧
    (runFailedAttempts 5 e 5).1.notifStatus = "failed" ∧
    (runFailedAttempts 5 e 5).2 =
      [exponentialBackoff 0, exponentialBackoff 1, exponentialBackoff 2,
        exponentialBackoff 3, exponentialBackoff 4] ∧
    (runFailedAttempts 5 e 5).2 = [30, 60, 120, 240, 480] ∧
    (failedAttemptStep 5 e (runFailedAttempts 5 e 5).1).2 = none ∧
    (runFailedAttempts 5 e 6).1.notifStatus = "failed" ∧
    (runFailedAttempts 5 e 6).2 = [30, 60, 120, 240, 480] ∧
    (runFailedAttempts 5 e 6).1.deliveryLog = some ("failed", some e) :=
  ⟨rfl, rfl, rfl, rfl, rfl, rfl, rfl, rfl⟩

/-- Claim C5, counterexample: with no tenant given and
`FIREBASE_CREDENTIALS_PATH` unset, obtaining a client does fail
immediately with the configuration error — but the error is NOT
"never retried": the async send task catches every exception alike
and schedules a backoff retry for it. -/
theorem claim5_counterexample :
    (getOrCreateApp (fun _ => []) "" none ⟨[], [], 0⟩).1 =
      .error CONFIG_ERROR_MSG ∧
    (failedAttemptStep 5 CONFIG_ERROR_MSG initialTaskState).2 =
      some (exponentialBackoff 0) :=
  ⟨rfl, rfl⟩

/-- Claim C5 (amended): when no tenant is given, no default client is
cached, and `FIREBASE_CREDENTIALS_PATH` is unset, obtaining a client
fails immediately with the configuration error (raised as a
`ValueError`), leaving the pool untouched; the synchronous paths
surface it as a structured failure, but the asynchronous task pipeline
catches it like any delivery error and retries it until the attempt
cap. -/
theorem claim5_config_error (jsonLoads : String → CredData)
    (st : PoolState) (h : assocFind st.fcmApps "[DEFAULT]" = none) :
    (getOrCreateApp jsonLoads "" none st).1 = .error CONFIG_ERROR_MSG ∧
    (getOrCreateApp jsonLoads "" none st).2 = st ∧
    ∀ ts : TaskState, ts.retries + 1 ≤ 5 →
      (failedAttemptStep 5 CONFIG_ERROR_MSG ts).2 =
        some (exponentialBackoff ts.retries) := by
  refine ⟨?_, ?_, ?_⟩
  · simp [getOrCreateApp, h]
  · simp [getOrCreateApp, h]
  · intro ts hts
    simp only [failedAttemptStep]
    split <;> simp [hts]

/-- Witness for C5 on the empty pool and a fresh task. -/
theorem claim5_witness :
    (getOrCreateApp (fun _ => [("k", "v")]) "" none ⟨[], [], 0⟩).1 =
      .error CONFIG_ERROR_MSG ∧
    (getOrCreateApp (fun _ => [("k", "v")]) "" none ⟨[], [], 0⟩).2 =
      (⟨[], [], 0⟩ : PoolState) ∧
    ∀ ts : TaskState, ts.retries + 1 ≤ 5 →
      (failedAttemptStep 5 CONFIG_ERROR_MSG ts).2 =
        some (exponentialBackoff ts.retries) :=
  claim5_config_error (fun _ => [("k", "v")]) ⟨[], [], 0⟩ rfl

/-- Claim C6: on the first request for a cache key the client is
constructed from the credential blob (the default path from the
credential file path, the tenant path from `credentials_json`, parsed
with `json.loads` when stored as a string), given a fresh identity,
and inserted into the process-wide map; a second request for the same
key returns exactly that cached instance with the pool state
unchanged (no reconstruction). -/
theorem claim6_client_cache (jsonLoads : String → CredData)
    (credPath : String) (proj : Option FirebaseProject) (st : PoolState)
    (hkey : assocFind st.fcmApps (cacheKeyOf proj) = none)
    (hadmin : assocFind st.adminApps (cacheKeyOf proj) = none)
    (hfresh : proj = none → st.adminApps = [])
    (hcred : proj = none → credPath ≠ "") :
    ∃ app : App,
      (getOrCreateApp jsonLoads credPath proj st).1 = .ok app ∧
      app.id = st.nextId ∧
      app.cred = (match proj with
        | none => .path credPath
        | some fp => .data (match fp.credentialsJson with
            | .dict d => d
            | .str s => jsonLoads s)) ∧
      assocFind (getOrCreateApp jsonLoads credPath proj st).2.fcmApps
        (cacheKeyOf proj) = some app ∧
      getOrCreateApp jsonLoads credPath proj
          (getOrCreateApp jsonLoads credPath proj st).2 =
        (.ok app, (getOrCreateApp jsonLoads credPath proj st).2) := by
  cases proj with
  | none =>
    have hemp : st.adminApps = [] := hfresh rfl
    have hc : credPath ≠ "" := hcred rfl
    have hkey' : assocFind st.fcmApps "[DEFAULT]" = none := hkey
    refine ⟨⟨st.nextId, .path credPath⟩, ?_, rfl, rfl, ?_, ?_⟩
    · simp [getOrCreateApp, hkey', hemp, hc]
    · simp [getOrCreateApp, cacheKeyOf, hkey', hemp, hc, assocFind]
    · simp [getOrCreateApp, hkey', hemp, hc, assocFind]
  | some fp =>
    have hkey' : assocFind st.fcmApps ("project_" ++ toString fp.pk) = none := hkey
    have hadmin' : assocFind st.adminApps ("project_" ++ toString fp.pk) = none := hadmin
    refine ⟨⟨st.nextId,
      .data (match fp.credentialsJson with
        | .dict d => d
        | .str s => jsonLoads s)⟩, ?_, rfl, rfl, ?_, ?_⟩
    · simp [getOrCreateApp, hkey', hadmin']
    · simp [getOrCreateApp, cacheKeyOf, hkey', hadmin', assocFind]
    · simp [getOrCreateApp, hkey', hadmin', assocFind]

/-- Witness for C6: a fresh pool and a tenant project with a
string-stored credential blob. -/
theorem claim6_witness :
    ∃ app : App,
      (getOrCreateApp (fun _ => [("project_id", "demo")]) ""
          (some ⟨7, .str "raw"⟩) ⟨[], [], 0⟩).1 = .ok app ∧
      app.id = 0 ∧
      app.cred = (match (some ⟨7, .str "raw"⟩ : Option FirebaseProject) with
        | none => .path ""
        | some fp => .data (match fp.credentialsJson with
            | .dict d => d
            | .str s => (fun _ => [("project_id", "demo")] : String → CredData) s)) ∧
      assocFind (getOrCreateApp (fun _ => [("project_id", "demo")]) ""
          (some ⟨7, .str "raw"⟩) ⟨[], [], 0⟩).2.fcmApps
        (cacheKeyOf (some ⟨7, .str "raw"⟩)) = some app ∧
      getOrCreateApp (fun _ => [("project_id", "demo")]) ""
          (some ⟨7, .str "raw"⟩)
          (getOrCreateApp (fun _ => [("project_id", "demo")]) ""
            (some ⟨7, .str "raw"⟩) ⟨[], [], 0⟩).2 =
        (.ok app, (getOrCreateApp (fun _ => [("project_id", "demo")]) ""
          (some ⟨7, .str "raw"⟩) ⟨[], [], 0⟩).2) :=
  claim6_client_cache (fun _ => [("project_id", "demo")]) ""
    (some ⟨7, .str "raw"⟩) ⟨[], [], 0⟩ rfl rfl
    (fun h => Option.noConfusion h) (fun h => Option.noConfusion h)

/-! ## Synchronous send views (`notification/views.py`)

`SendNotificationView.post` (lines 55-154): filters the profile's
active devices (404 when none); inside `try` it constructs
`FCMService`, creates the `Notification` row with status "sent" and
`sent_at=now` BEFORE sending, then does a direct send for one token or
a multicast for several, writing one delivery-log row per device after
the send; on any exception it returns the structured
`"send_failed"` failure with the captured message — without writing
any delivery-log row (database writes already performed persist, as
there is no enclosing transaction).

`BulkSendNotificationView.post` (lines 171-243): same shape, except
the multicast happens BEFORE the `Notification` row is created, so a
provider failure leaves no notification row at all.

The provider calls are oracles: `init` for the `FCMService`
constructor, `single` for `send_to_device`, `multicast` for
`send_multicast` (an `.error` models the call raising, carrying
`str(e)`). -/

structure NotificationRecord where
  title : String
  body : String
  status : String
  sentAt : Option Nat
deriving DecidableEq

/-- The provider's multicast response object: `responses` is optional
(the views probe it with `hasattr`). -/
structure BatchResponse where
  responses : Option (List SendResponse)
  successCount : Nat
  failureCount : Nat

structure FcmOracle where
  init : Except String Unit
  single : Except String String
  multicast : Except String BatchResponse

/-- Observable outcome of one POST: the HTTP response plus the
database rows the handler created. -/
structure PostResult where
  httpStatus : Nat
  success : Bool
  errorCode : Option String
  errorMessage : Option String
  notifications : List NotificationRecord
  logs : List DeliveryLogRow
deriving DecidableEq

/-- The embedding of `SendNotificationView.post`. -/
def sendNotificationPost (profileDevices : List Device) (o : FcmOracle)
    (title body : String) (now : Nat) : PostResult :=
  match profileDevices.filter (fun d => d.isActive) with
  | [] =>
    { httpStatus := 404, success := false, errorCode := some "not_found",
      errorMessage := some "No active device found for this profile.",
      notifications := [], logs := [] }
  | d :: ds =>
    match o.init with
    | .error e =>
      { httpStatus := 500, success := false, errorCode := some "send_failed",
        errorMessage := some e, notifications := [], logs := [] }
    | .ok _ =>
      let notif : NotificationRecord :=
        { title := title, body := body, status := "sent", sentAt := some now }
      match ds with
      | [] =>
        match o.single with
        | .ok _ =>
          { httpStatus := 200, success := true, errorCode := none,
            errorMessage := none, notifications := [notif],
            logs := [{ deviceId := d.id, status := "sent",
                       errorMessage := none, deliveredAt := some now }] }
        | .error e =>
          { httpStatus := 500, success := false, errorCode := some "send_failed",
            errorMessage := some e, notifications := [notif], logs := [] }
      | _ :: _ =>
        match o.multicast with
        | .ok resp =>
          { httpStatus := 200, success := true, errorCode := none,
            errorMessage := none, notifications := [notif],
            logs := reconcileOutcomes (d :: ds) resp.responses now }
        | .error e =>
          { httpStatus := 500, success := false, errorCode := some "send_failed",
            errorMessage := some e, notifications := [notif], logs := [] }

/-- The embedding of `BulkSendNotificationView.post`. -/
def bulkSendNotificationPost (devices : List Device) (o : FcmOracle)
    (title body : String) (now : Nat) : PostResult :=
  match devices.filter (fun d => d.isActive) with
  | [] =>
    { httpStatus := 404, success := false, errorCode := some "not_found",
      errorMessage := some "No active devices found for the provided phone numbers.",
      notifications := [], logs := [] }
  | d :: ds =>
    match o.init with
    | .error e =>
      { httpStatus := 500, success := false, errorCode := some "send_failed",
        errorMessage := some e, notifications := [], logs := [] }
    | .ok _ =>
      match o.multicast with
      | .ok resp =>
        let notif : NotificationRecord :=
          { title := title, body := body, status := "sent", sentAt := some now }
        { httpStatus := 200, success := true, errorCode := none,
          errorMessage := none, notifications := [notif],
          logs := reconcileOutcomes (d :: ds) resp.responses now }
      | .error e =>
        { httpStatus := 500, success := false, errorCode := some "send_failed",
          errorMessage := some e, notifications := [], logs := [] }

/-- Claim C1, counterexample: a single-device synchronous send whose
provider call raises returns the structured failure, but writes NO
delivery-log row at all — in particular no "failed" row with the
captured error — and the pre-created notification row keeps status
"sent". -/
theorem claim1_counterexample :
    (sendNotificationPost [⟨1, "tok", "Android", true⟩]
        ⟨.ok (), .error "boom", .error "boom"⟩ "t" "b" 0).httpStatus = 500 ∧
    (sendNotificationPost [⟨1, "tok", "Android", true⟩]
        ⟨.ok (), .error "boom", .error "boom"⟩ "t" "b" 0).errorMessage =
      some "boom" ∧
    (sendNotificationPost [⟨1, "tok", "Android", true⟩]
        ⟨.ok (), .error "boom", .error "boom"⟩ "t" "b" 0).logs = [] ∧
    (sendNotificationPost [⟨1, "tok", "Android", true⟩]
        ⟨.ok (), .error "boom", .error "boom"⟩ "t" "b" 0).notifications =
      [⟨"t", "b", "sent", some 0⟩] :=
  ⟨rfl, rfl, rfl, rfl⟩

/-- Claim C1 (amended): when the provider send raises during a
synchronous send request, the handler returns the structured failure
response (code "send_failed" plus the captured message) rather than
propagating, and no NotificationRecord is left with status "pending"
(the single-profile view leaves its pre-created record at status
"sent"; the bulk view creates none) — but NO DeliveryOutcome row, in
particular no "failed" row, is written for the affected recipients. -/
theorem claim1_sync_failure (devices : List Device)
    (e title body : String) (now : Nat)
    (hactive : devices.filter (fun d => d.isActive) ≠ []) :
    (sendNotificationPost devices ⟨.ok (), .error e, .error e⟩
        title body now).httpStatus = 500 ∧
    (sendNotificationPost devices ⟨.ok (), .error e, .error e⟩
        title body now).success = false ∧
    (sendNotificationPost devices ⟨.ok (), .error e, .error e⟩
        title body now).errorCode = some "send_failed" ∧
    (sendNotificationPost devices ⟨.ok (), .error e, .error e⟩
        title body now).errorMessage = some e ∧
    (sendNotificationPost devices ⟨.ok (), .error e, .error e⟩
        title body now).logs = [] ∧
    (∀ n ∈ (sendNotificationPost devices ⟨.ok (), .error e, .error e⟩
        title body now).notifications, n.status = "sent") ∧
    (bulkSendNotificationPost devices ⟨.ok (), .error e, .error e⟩
        title body now).httpStatus = 500 ∧
    (bulkSendNotificationPost devices ⟨.ok (), .error e, .error e⟩
        title body now).errorCode = some "send_failed" ∧
    (bulkSendNotificationPost devices ⟨.ok (), .error e, .error e⟩
        title body now).errorMessage = some e ∧
    (bulkSendNotificationPost devices ⟨.ok (), .error e, .error e⟩
        title body now).logs = [] ∧
    (bulkSendNotificationPost devices ⟨.ok (), .error e, .error e⟩
        title body now).notifications = [] := by
  rcases hf : devices.filter (fun d => d.isActive) with _ | ⟨d, ds⟩
  · exact absurd hf hactive
  · cases ds <;>
      simp [sendNotificationPost, bulkSendNotificationPost, hf]

/-- Witness for C1 (amended) at a concrete single active device. -/
theorem claim1_witness :
    (sendNotificationPost [⟨1, "tok", "Android", true⟩]
        ⟨.ok (), .error "x", .error "x"⟩ "t" "b" 3).httpStatus = 500 ∧
    (sendNotificationPost [⟨1, "tok", "Android", true⟩]
        ⟨.ok (), .error "x", .error "x"⟩ "t" "b" 3).success = false ∧
    (sendNotificationPost [⟨1, "tok", "Android", true⟩]
        ⟨.ok (), .error "x", .error "x"⟩ "t" "b" 3).errorCode = some "send_failed" ∧
    (sendNotificationPost [⟨1, "tok", "Android", true⟩]
        ⟨.ok (), .error "x", .error "x"⟩ "t" "b" 3).errorMessage = some "x" ∧
    (sendNotificationPost [⟨1, "tok", "Android", true⟩]
        ⟨.ok (), .error "x", .error "x"⟩ "t" "b" 3).logs = [] ∧
    (∀ n ∈ (sendNotificationPost [⟨1, "tok", "Android", true⟩]
        ⟨.ok (), .error "x", .error "x"⟩ "t" "b" 3).notifications,
      n.status = "sent") ∧
    (bulkSendNotificationPost [⟨1, "tok", "Android", true⟩]
        ⟨.ok (), .error "x", .error "x"⟩ "t" "b" 3).httpStatus = 500 ∧
    (bulkSendNotificationPost [⟨1, "tok", "Android", true⟩]
        ⟨.ok (), .error "x", .error "x"⟩ "t" "b" 3).errorCode = some "send_failed" ∧
    (bulkSendNotificationPost [⟨1, "tok", "Android", true⟩]
        ⟨.ok (), .error "x", .error "x"⟩ "t" "b" 3).errorMessage = some "x" ∧
    (bulkSendNotificationPost [⟨1, "tok", "Android", true⟩]
        ⟨.ok (), .error "x", .error "x"⟩ "t" "b" 3).logs = [] ∧
    (bulkSendNotificationPost [⟨1, "tok", "Android", true⟩]
        ⟨.ok (), .error "x", .error "x"⟩ "t" "b" 3).notifications = [] :=
  claim1_sync_failure [⟨1, "tok", "Android", true⟩] "x" "t" "b" 3 (by decide)

end FcmServer
